import Mathlib

/-!
Verification of the `image-astc` crate (`src/lib.rs`): a shallow embedding of
`decode_header` and `load_from_memory` over byte lists (`List Nat`, each
element a byte value) and 32-bit-unit lists, with panics modelled as an
explicit outcome.
-/

namespace ImageAstc

/-- Outcome of a Rust computation returning `ImageResult`: a normal `Ok`
return, an `Err` return, or a panic (e.g. from `unwrap` on a failed
conversion). -/
inductive RustResult (ε α : Type) where
  | ok : α → RustResult ε α
  | err : ε → RustResult ε α
  | panicked : RustResult ε α
deriving DecidableEq

/-- The `image::error::LimitErrorKind` variants used by the crate. -/
inductive LimitErrorKind where
  | InsufficientMemory
  | DimensionError
deriving DecidableEq

/-- The `image::ImageError` variants used by the crate: a decoding error
carrying a message (with `ImageFormatHint::Unknown`), or a limit error. -/
inductive ImageError where
  | Decoding (message : String)
  | Limits (kind : LimitErrorKind)
deriving DecidableEq

/-- Little-endian interpretation of a byte list, first byte least
significant: the semantics of `uN::from_le_bytes` on its byte array. -/
def from_le_bytes (b : List Nat) : Nat :=
  b.foldr (fun byte acc => byte + 256 * acc) 0

/-- Rust slice indexing `data[a..b]` on a byte list (only used on paths
where `a ≤ b ≤ data.len()` holds, so take/drop is exact). -/
def slice (data : List Nat) (a b : Nat) : List Nat :=
  (data.take b).drop a

/-- `<&[u8] as TryInto<[u8; n]>>::try_into`: succeeds exactly when the
slice length equals `n`. -/
def try_into_array (n : Nat) (b : List Nat) : Option (List Nat) :=
  if b.length = n then some b else none

/-- The 12-byte ASTC signature constant `A5 7C C7 5A 4F F4 5F 5F 4F F4 5F 5F`. -/
def astc_signature : List Nat :=
  [0xA5, 0x7C, 0xC7, 0x5A, 0x4F, 0xF4, 0x5F, 0x5F, 0x4F, 0xF4, 0x5F, 0x5F]

/-- Message of the too-short decoding error in `decode_header`. -/
def tooShortMessage : String := "Data is too short to contain an ASTC header"

/-- Message of the bad-signature decoding error in `decode_header`. -/
def badSignatureMessage : String := "Data does not contain an ASTC header"

/-- Shallow embedding of `decode_header` (src/lib.rs lines 60–91).
Checks `data.len() < 30`, then compares `data[0..12]` to the signature,
then evaluates `u16::from_le_bytes(data[12..14].try_into().unwrap())`,
`u32::from_le_bytes(data[14..22].try_into().unwrap())` and
`u32::from_le_bytes(data[22..30].try_into().unwrap())` in that order;
a failed `try_into` makes `unwrap` panic, modelled as `.panicked`. -/
def decode_header (data : List Nat) : RustResult ImageError (Nat × Nat) :=
  if data.length < 30 then
    .err (.Decoding tooShortMessage)
  else if slice data 0 12 ≠ astc_signature then
    .err (.Decoding badSignatureMessage)
  else
    match try_into_array 2 (slice data 12 14) with
    | none => .panicked
    | some _vb =>
      match try_into_array 4 (slice data 14 22) with
      | none => .panicked
      | some wb =>
        match try_into_array 4 (slice data 22 30) with
        | none => .panicked
        | some hb =>
          .ok (from_le_bytes wb, from_le_bytes hb)

/-- Little-endian byte expansion of one 32-bit unit: the effect of
`bytemuck::cast_slice::<u32, u8>` on one element (little-endian target). -/
def u32_to_le_bytes (v : Nat) : List Nat :=
  [v % 256, v / 2 ^ 8 % 256, v / 2 ^ 16 % 256, v / 2 ^ 24 % 256]

/-- `bytemuck::cast_slice::<u32, u8>`: a `&[u32]` viewed as a `&[u8]`. -/
def cast_slice_u32_to_bytes (data : List Nat) : List Nat :=
  (data.map u32_to_le_bytes).flatten

/-- `ImageBuffer::<Rgba<u32>, Vec<u32>>::from_raw width height buf`:
succeeds exactly when the checked length `4 * width * height` fits in
`usize` and the container holds at least that many elements. -/
def from_raw_rgba_u32 (width height : Nat) (buf : List Nat) :
    Option (List Nat) :=
  if 4 * width * height < 2 ^ 64 ∧ 4 * width * height ≤ buf.length then
    some buf
  else
    none

/-- The `image::DynamicImage` variants relevant to the crate: the crate's
success expression constructs an 8-bit RGBA variant. Pixel data is the raw
byte container. -/
inductive DynamicImage where
  | ImageRgba8 (width height : Nat) (pixels : List Nat)
deriving DecidableEq

/-- `DynamicImage::new_rgba8`: a freshly allocated, zero-filled
`width × height` 8-bit-per-channel RGBA image. -/
def new_rgba8 (width height : Nat) : DynamicImage :=
  .ImageRgba8 width height (List.replicate (width * height * 4) 0)

/-- Reported width of a dynamic image. -/
def DynamicImage.width : DynamicImage → Nat
  | .ImageRgba8 w _ _ => w

/-- Reported height of a dynamic image. -/
def DynamicImage.height : DynamicImage → Nat
  | .ImageRgba8 _ h _ => h

/-- Shallow embedding of `load_from_memory` (src/lib.rs lines 109–118):
delegates to `decode_header` on the input reinterpreted as bytes
(propagating errors with `?` and panics), copies the full unit sequence
into an owned buffer, attempts `ImageBuffer::from_raw`, maps `None` to
`ImageError::Limits(InsufficientMemory)`, and maps success to
`DynamicImage::new_rgba8(width, height)` (discarding the buffer). -/
def load_from_memory (data : List Nat) : RustResult ImageError DynamicImage :=
  match decode_header (cast_slice_u32_to_bytes data) with
  | .panicked => .panicked
  | .err e => .err e
  | .ok (width, height) =>
    let buf := data
    match from_raw_rgba_u32 width height buf with
    | none => .err (.Limits .InsufficientMemory)
    | some _ => .ok (new_rgba8 width height)

/-- 8-byte little-endian encoding of a value (its low 64 bits), matching
the width/height fields of the documented header layout. -/
def u64_to_le_bytes (v : Nat) : List Nat :=
  [v % 256, v / 2 ^ 8 % 256, v / 2 ^ 16 % 256, v / 2 ^ 24 % 256,
   v / 2 ^ 32 % 256, v / 2 ^ 40 % 256, v / 2 ^ 48 % 256, v / 2 ^ 56 % 256]

/-- A well-formed 30-byte header per the documented layout: signature,
2-byte little-endian version, 8-byte little-endian width and height. -/
def encode_header (version width height : Nat) : List Nat :=
  astc_signature ++ [version % 256, version / 256 % 256] ++
    u64_to_le_bytes width ++ u64_to_le_bytes height

/-- A 12-unit input whose byte reinterpretation starts with a valid header
declaring `width = 2`, `height = 2` (version 0), followed by exactly 4
payload units (`9, 10, 11, 12`) after the 8 header-covering units. -/
def units_2x2_exact : List Nat :=
  [0x5AC77CA5, 0x5F5FF44F, 0x5F5FF44F, 0x00020000, 0, 0x00020000, 0, 0,
   9, 10, 11, 12]

/-- A 10-unit input: the same valid `2 × 2` header, but only 2 payload
units after the 8 header-covering units (fewer than the 4 required). -/
def units_2x2_short : List Nat :=
  [0x5AC77CA5, 0x5F5FF44F, 0x5F5FF44F, 0x00020000, 0, 0x00020000, 0, 0,
   9, 10]

/-- A 16-unit input: the same valid `2 × 2` header followed by 8 payload
units. -/
def units_2x2_long : List Nat :=
  [0x5AC77CA5, 0x5F5FF44F, 0x5F5FF44F, 0x00020000, 0, 0x00020000, 0, 0,
   1, 2, 3, 4, 5, 6, 7, 8]

lemma slice_length (data : List Nat) (a b : Nat) (hb : b ≤ data.length) :
    (slice data a b).length = b - a := by
  simp only [slice, List.length_drop, List.length_take]
  omega

lemma decode_header_eq_panicked {data : List Nat} (hlen : 30 ≤ data.length)
    (hsig : data.take 12 = astc_signature) :
    decode_header data = .panicked := by
  have h14 : (slice data 12 14).length = 2 :=
    slice_length data 12 14 (by omega)
  have h22 : (slice data 14 22).length = 8 :=
    slice_length data 14 22 (by omega)
  have hsig' : slice data 0 12 = astc_signature := by
    simpa [slice] using hsig
  rw [decode_header, if_neg (by omega), if_neg (by simp [hsig'])]
  rw [try_into_array, if_pos h14]
  rw [try_into_array, if_neg (by omega)]

lemma decode_header_short {data : List Nat} (hlen : data.length < 30) :
    decode_header data = .err (.Decoding tooShortMessage) := by
  rw [decode_header, if_pos hlen]

lemma decode_header_badsig {data : List Nat} (hlen : 30 ≤ data.length)
    (hsig : data.take 12 ≠ astc_signature) :
    decode_header data = .err (.Decoding badSignatureMessage) := by
  have hsig' : slice data 0 12 ≠ astc_signature := by
    simpa [slice] using hsig
  rw [decode_header, if_neg (by omega), if_pos hsig']

lemma decode_header_never_ok (data : List Nat) (w h : Nat) :
    decode_header data ≠ .ok (w, h) := by
  by_cases hlen : data.length < 30
  · rw [decode_header_short hlen]
    simp
  · by_cases hsig : data.take 12 = astc_signature
    · rw [decode_header_eq_panicked (by omega) hsig]
      simp
    · rw [decode_header_badsig (by omega) hsig]
      simp

lemma load_from_memory_never_ok (data : List Nat) (img : DynamicImage) :
    load_from_memory data ≠ .ok img := by
  cases hd : decode_header (cast_slice_u32_to_bytes data) with
  | ok p => exact absurd hd (decode_header_never_ok _ p.1 p.2)
  | err e => simp [load_from_memory, hd]
  | panicked => simp [load_from_memory, hd]

/-- C4: for every input of length ≥ 30 bytes whose first 12 bytes match the
signature constant, `decode_header` panics rather than returning (the
8-byte slices `data[14..22]` and `data[22..30]` fail the `try_into`
conversion to the 4-byte arrays required by `u32::from_le_bytes`, and
`unwrap` panics); consequently `decode_header` never returns `Ok`, and
`load_from_memory` never reaches its success path. -/
theorem decode_header_always_panics_past_validation :
    (∀ data : List Nat, 30 ≤ data.length → data.take 12 = astc_signature →
      decode_header data = .panicked)
  ∧ (∀ (data : List Nat) (w h : Nat), decode_header data ≠ .ok (w, h))
  ∧ (∀ (data : List Nat) (img : DynamicImage),
      load_from_memory data ≠ .ok img) :=
  ⟨fun _ hlen hsig => decode_header_eq_panicked hlen hsig,
   decode_header_never_ok, load_from_memory_never_ok⟩

/-- Witness for C4 at a concrete well-formed input. -/
theorem decode_header_always_panics_past_validation_witness :
    30 ≤ (encode_header 7 9 9).length
  ∧ (encode_header 7 9 9).take 12 = astc_signature
  ∧ decode_header (encode_header 7 9 9) = .panicked :=
  ⟨by decide, by decide,
    decode_header_always_panics_past_validation.1 (encode_header 7 9 9)
      (by decide) (by decide)⟩

/-- C1: the round-trip property fails on the code. At the well-formed
input encoding `width = 1`, `height = 1` (signature, version 0, 8-byte
little-endian fields), `decode_header` panics instead of returning
`Ok (1, 1)`. -/
theorem decode_header_roundtrip_fails :
    decode_header (encode_header 0 1 1) = .panicked
  ∧ decode_header (encode_header 0 1 1) ≠ .ok (1, 1) := by decide

/-- C2: the claimed parse of bytes `[14,22)` / `[22,30)` as little-endian
64-bit values narrowed to 32 bits does not happen. At the well-formed
input with `width = 2 ^ 32 + 7` and `height = 3`, the claim predicts
`Ok (7, 3)` (silent wrap to the low 32 bits); the code panics. -/
theorem decode_header_no_narrowing_panics :
    decode_header (encode_header 0 (2 ^ 32 + 7) 3) = .panicked
  ∧ decode_header (encode_header 0 (2 ^ 32 + 7) 3) ≠ .ok (7, 3) := by decide

/-- C3: `decode_header` is not panic-free: at the well-formed input with
`width = 0`, `height = 0` and version 2, it panics rather than returning
an `Ok` or `Err` value. -/
theorem decode_header_not_panic_free :
    decode_header (encode_header 2 0 0) = .panicked := by decide

/-- C5: the success path of `load_from_memory` is unreachable: at a
16-unit input holding a valid `2 × 2` header plus 8 payload units, the
call panics inside `decode_header`; it never returns an RGBA image backed
by the payload (its success expression would in any case build the blank
`DynamicImage::new_rgba8(width, height)`, discarding the buffer). -/
theorem load_from_memory_no_rgba32_success :
    load_from_memory units_2x2_long = .panicked
  ∧ load_from_memory units_2x2_long ≠ .ok (new_rgba8 2 2) := by decide

/-- C6: at a 12-unit input declaring `width = 2`, `height = 2` with
exactly 4 payload units after the 8 header-covering units,
`load_from_memory` panics instead of succeeding with a `2 × 2` image. -/
theorem load_from_memory_2x2_exact_panics :
    load_from_memory units_2x2_exact = .panicked
  ∧ load_from_memory units_2x2_exact ≠ .ok (new_rgba8 2 2) := by decide

/-- C7: at a 10-unit input declaring `width = 2`, `height = 2` with only
2 payload units after the 8 header-covering units, `load_from_memory`
panics instead of failing with the insufficient-memory limit error. -/
theorem load_from_memory_2x2_short_panics :
    load_from_memory units_2x2_short = .panicked
  ∧ load_from_memory units_2x2_short ≠ .err (.Limits .InsufficientMemory) := by
  decide

/-- C8: every byte sequence shorter than 30 bytes makes `decode_header`
fail with the too-short decoding error, and the result is never the
bad-signature error: the length check precedes any byte comparison. -/
theorem decode_header_too_short_first (data : List Nat)
    (hlen : data.length < 30) :
    decode_header data = .err (.Decoding tooShortMessage)
  ∧ decode_header data ≠ .err (.Decoding badSignatureMessage) := by
  refine ⟨decode_header_short hlen, ?_⟩
  rw [decode_header_short hlen]
  intro hc
  have hmsg : tooShortMessage = badSignatureMessage := by
    injection hc with h1
    injection h1
  exact absurd hmsg (by decide)

/-- Witness for C8 at the spec's concrete scenario of 10 zero bytes. -/
theorem decode_header_too_short_first_witness :
    (List.replicate 10 0).length < 30
  ∧ decode_header (List.replicate 10 0) = .err (.Decoding tooShortMessage)
  ∧ decode_header (List.replicate 10 0) ≠ .err (.Decoding badSignatureMessage) :=
  ⟨by decide,
    (decode_header_too_short_first (List.replicate 10 0) (by decide)).1,
    (decode_header_too_short_first (List.replicate 10 0) (by decide)).2⟩

/-- C9: every byte sequence of length ≥ 30 whose first 12 bytes differ
from the magic constant makes `decode_header` fail with the bad-signature
decoding error, which is a different error value from the too-short one. -/
theorem decode_header_bad_signature_error (data : List Nat)
    (hlen : 30 ≤ data.length) (hsig : data.take 12 ≠ astc_signature) :
    decode_header data = .err (.Decoding badSignatureMessage)
  ∧ (ImageError.Decoding badSignatureMessage ≠
      ImageError.Decoding tooShortMessage) :=
  ⟨decode_header_badsig hlen hsig, by decide⟩

/-- Witness for C9 at the spec's concrete scenario of 30 zero bytes. -/
theorem decode_header_bad_signature_error_witness :
    30 ≤ (List.replicate 30 0).length
  ∧ (List.replicate 30 0).take 12 ≠ astc_signature
  ∧ decode_header (List.replicate 30 0) = .err (.Decoding badSignatureMessage) :=
  ⟨by decide, by decide,
    (decode_header_bad_signature_error (List.replicate 30 0)
      (by decide) (by decide)).1⟩

/-- C10: whenever `decode_header` on the input reinterpreted as bytes
returns an error, `load_from_memory` returns exactly that error value,
unchanged; the match takes the error branch, so the buffer-construction
step (`from_raw_rgba_u32`) is never evaluated. -/
theorem load_from_memory_propagates_decode_errors (data : List Nat)
    (e : ImageError)
    (h : decode_header (cast_slice_u32_to_bytes data) = .err e) :
    load_from_memory data = .err e := by
  unfold load_from_memory
  rw [h]

/-- Witness for C10 at the empty unit sequence, whose byte form is too
short. -/
theorem load_from_memory_propagates_decode_errors_witness :
    decode_header (cast_slice_u32_to_bytes []) = .err (.Decoding tooShortMessage)
  ∧ load_from_memory [] = .err (.Decoding tooShortMessage) :=
  ⟨by decide,
    load_from_memory_propagates_decode_errors []
      (.Decoding tooShortMessage) (by decide)⟩

end ImageAstc

